import Mathlib

/-!
Verification of the sanctum-sdk-go protocol client against its
natural-language specification.

This file gives a shallow embedding of the Go source:
* the frame codec `writeFrame` / `readFrame` (length-prefixed JSON frames),
* the JSON data model (`RpcRequest`, `RpcResponse`, `VaultError`,
  `Credential`, `authChallenge`, `authResult`),
* the RPC dispatcher `Client.call`,
* the operations `Authenticate` and `Retrieve`.

Byte streams are `List Nat` (each element a byte value); machine `uint32`
and `uint64` arithmetic is modelled as `Nat` with explicit `% 2^32` /
`% 2^64` where the Go code truncates or wraps. `encoding/json` marshalling
and unmarshalling of the top-level request/response payloads are external
library functions; they enter the model as explicit `marshal` / `parse`
parameters, while the field-level decoding of the error/result payloads
(`VaultError`, `Credential`, `authChallenge`, `authResult`) is modelled
concretely over a JSON value type mirroring Go `encoding/json` struct
decoding (absent field gives the zero value, wrong type is an error, last
duplicate key wins).
-/

namespace Sanctum

/-- A JSON value, modelling the structured payloads carried by frames.
Go `json.RawMessage` fields are modelled as (`Option`-wrapped) `Json`
values; numbers are integers (the payloads this client decodes use only
integer fields). -/
inductive Json where
  | null : Json
  | bool (b : Bool) : Json
  | num (n : Int) : Json
  | str (s : String) : Json
  | arr (xs : List Json) : Json
  | obj (fields : List (String × Json)) : Json

/-- Structure `RpcRequest` from the source: `{id uint64, method string, params RawMessage}`. -/
structure RpcRequest where
  ID : Nat
  Method : String
  Params : Json

/-- Structure `RpcResponse` from the source:
`{id uint64, result RawMessage omitempty, error RawMessage omitempty}`.
A `nil` raw message is `none`. -/
structure RpcResponse where
  ID : Nat
  Result : Option Json
  Error : Option Json

/-- Constant `maxFrameSize = 16 * 1024 * 1024` from the source. -/
def maxFrameSize : Nat := 16 * 1024 * 1024

/-- Big-endian 4-byte encoding of a `uint32` value, as produced by
`binary.Write(w, binary.BigEndian, length)`. -/
def be32 (n : Nat) : List Nat :=
  [n / 2 ^ 24 % 256, n / 2 ^ 16 % 256, n / 2 ^ 8 % 256, n % 256]

/-- Big-endian value of a byte list, as read by
`binary.Read(r, binary.BigEndian, &length)` on 4 bytes. -/
def beVal (l : List Nat) : Nat :=
  l.foldl (fun acc b => acc * 256 + b) 0

/-- The byte layout shared by `writeFrame` and the tests' manual frame
construction: `uint32(len(payload))` big-endian, then the raw payload. -/
def frameBytes (payload : List Nat) : List Nat :=
  be32 (payload.length % 2 ^ 32) ++ payload

/-- Function `writeFrame` from the source: marshal the request, then write the
4-byte big-endian `uint32(len(payload))` prefix followed by the payload.
`marshal` stands for `json.Marshal`; `none` is a marshal error, in which
case nothing is written. There is no size check on the write path. -/
def writeFrame (marshal : α → Option (List Nat)) (req : α) :
    Option (List Nat) :=
  match marshal req with
  | none => none
  | some payload => some (frameBytes payload)

/-- The failure cases of `readFrame` in the source: a `binary.Read`
error on the length, the `ProtocolError` for an oversized frame, an
`io.ReadFull` error on the payload, or a `json.Unmarshal` error. -/
inductive ReadFrameError where
  | lengthReadFailed : ReadFrameError
  | frameTooLarge (declared : Nat) : ReadFrameError
  | payloadReadFailed : ReadFrameError
  | unmarshalFailed : ReadFrameError

/-- Function `readFrame` from the source, over an explicit incoming byte stream:
read 4 bytes as a big-endian length, reject lengths above `maxFrameSize`
with a `ProtocolError` before reading further, otherwise read exactly
`length` payload bytes and unmarshal them. `parse` stands for
`json.Unmarshal` into `RpcResponse`. Returns the result together with
the part of the stream not consumed. -/
def readFrame (parse : List Nat → Option RpcResponse) (s : List Nat) :
    Except ReadFrameError RpcResponse × List Nat :=
  if 4 ≤ s.length then
    let length := beVal (s.take 4)
    let rest := s.drop 4
    if length > maxFrameSize then
      (Except.error (ReadFrameError.frameTooLarge length), rest)
    else if length ≤ rest.length then
      match parse (rest.take length) with
      | some resp => (Except.ok resp, rest.drop length)
      | none => (Except.error ReadFrameError.unmarshalFailed, rest.drop length)
    else
      (Except.error ReadFrameError.payloadReadFailed, [])
  else
    (Except.error ReadFrameError.lengthReadFailed, [])

/-- Field lookup in a decoded JSON object, as `encoding/json` struct
decoding sees it: when a key occurs more than once the last occurrence
wins. -/
def jLookup (fields : List (String × Json)) (k : String) :
    Option Json :=
  fields.foldl (fun acc kv => if kv.1 = k then some kv.2 else acc) none

/-- Decoding of a `string` struct field by `encoding/json`: an absent
key or a JSON `null` leaves the zero value `""`, a JSON string is taken
verbatim, and any other JSON type is an unmarshal error (`none`). -/
def getStrField (fields : List (String × Json)) (k : String) :
    Option String :=
  match jLookup fields k with
  | none => some ""
  | some Json.null => some ""
  | some (Json.str s) => some s
  | some _ => none

/-- Decoding of a `bool` struct field by `encoding/json`: absent or
`null` leaves `false`, a JSON boolean is taken verbatim, anything else
is an unmarshal error. -/
def getBoolField (fields : List (String × Json)) (k : String) :
    Option Bool :=
  match jLookup fields k with
  | none => some false
  | some Json.null => some false
  | some (Json.bool b) => some b
  | some _ => none

/-- Decoding of a `uint64` struct field by `encoding/json`: absent or
`null` leaves `0`, a non-negative JSON integer is taken verbatim, and a
negative number or any other JSON type is an unmarshal error. -/
def getUIntField (fields : List (String × Json)) (k : String) :
    Option Nat :=
  match jLookup fields k with
  | none => some 0
  | some Json.null => some 0
  | some (Json.num n) => if n < 0 then none else some n.toNat
  | some _ => none

/-- Structure `VaultError` from `errors.go`: structured error from the vault, with
`Code`, `Message`, `Detail`, `Suggestion`, `DocsURL` strings and a raw
`Context` payload. -/
structure VaultError where
  Code : String
  Message : String
  Detail : String
  Suggestion : String
  DocsURL : String
  Context : Option Json

/-- Model of `json.Unmarshal(resp.Error, &vaultErr)` from `Client.call`: decode
the error payload into a `VaultError`. The top level must be a JSON
object (or `null`, which leaves every field at its zero value); each
string field decodes per `getStrField`, and `Context` is a raw message
taking any JSON value. -/
def unmarshalVaultError (j : Json) : Option VaultError :=
  match j with
  | Json.obj fields =>
    match getStrField fields "code", getStrField fields "message",
        getStrField fields "detail", getStrField fields "suggestion",
        getStrField fields "docs_url" with
    | some code, some msg, some detail, some sugg, some docs =>
      some ⟨code, msg, detail, sugg, docs, jLookup fields "context"⟩
    | _, _, _, _, _ => none
  | Json.null => some ⟨"", "", "", "", "", none⟩
  | _ => none

/-- The failure cases of `Client.call`: a params marshal error, a
`writeFrame` error (request marshal failure), a `readFrame` error, the
`ProtocolError` raised when an error payload fails to parse, or a
decoded `VaultError`. -/
inductive CallError where
  | marshalParams : CallError
  | writeFailed : CallError
  | readFailed (e : ReadFrameError) : CallError
  | protocolErr (msg : String) : CallError
  | vault (e : VaultError) : CallError

/-- The cancellation/deadline signal carried by a `context.Context`:
whether the context has been cancelled, and its deadline if any.
`Client.call` reads only `ctx.Deadline()`; it never consults
`ctx.Done()` or `ctx.Err()`, so the `cancelled` field is unused by the
embedding, exactly as in the source. -/
structure Ctx where
  cancelled : Bool
  deadline : Option Nat

/-- The client's shared mutable state: the `nextID` counter
(`atomic.Uint64`, so arithmetic is modulo `2^64`). The connection and
mutex carry no further state observable by the claims; `NewClient` and
`NewTCPClient` both store `1` into `nextID`. -/
structure Client where
  nextID : Nat

/-- A fresh client as produced by `NewClient` / `NewTCPClient`:
`c.nextID.Store(1)`. -/
def NewClient : Client := ⟨1⟩

/-- Model of `c.nextID.Add(1) - 1` in `uint64` arithmetic: `Add` stores and
returns the incremented value, and subtracting 1 (mod `2^64`) recovers
the pre-increment value. Returns the allocated id and the new counter
value. -/
def allocId (s : Nat) : Nat × Nat :=
  let stored := (s + 1) % 2 ^ 64
  ((stored + (2 ^ 64 - 1)) % 2 ^ 64, stored)

/-- The observable outcome of one `Client.call`: the Go return value,
the updated client state, and a transcript — the request it constructed,
the byte frames actually written to the connection, the response frame
it consumed (if the read succeeded), and the part of the incoming stream
left unread. -/
structure CallOut where
  res : Except CallError (Option Json)
  client : Client
  req : RpcRequest
  wire : List (List Nat)
  received : Option RpcResponse
  remaining : List Nat

/-- The response-demultiplexing tail of `Client.call` (source lines
following the `readFrame`): if the response carries an error payload,
decode it into a `VaultError` (a payload that fails to decode is the
"failed to parse error response" `ProtocolError`); otherwise return the
result payload. Only the `Error` and `Result` fields of the response
are consulted — never its id. -/
def handleResponse (resp : RpcResponse) : Except CallError (Option Json) :=
  match resp.Error with
  | some errPayload =>
    match unmarshalVaultError errPayload with
    | none => Except.error (CallError.protocolErr "failed to parse error response")
    | some ve => Except.error (CallError.vault ve)
  | none => Except.ok resp.Result

/-- Function `Client.call` from the source. `parse` and `marshalReq` stand for
`json.Unmarshal` into `RpcResponse` and `json.Marshal` of the request
(inside `writeFrame`); `incoming` is the byte stream the connection
delivers. Params arrive as a structured `Json` value (the param maps
built by this SDK always marshal), the id is allocated with
`nextID.Add(1) - 1`, and the whole exchange runs under the client mutex:
the model is the body of that critical section. The context is consulted
only for its deadline, which is forwarded to `conn.SetDeadline` (a
transport effect with no bearing on the values computed here); the
response id is never compared with the request id. -/
def Client.call (parse : List Nat → Option RpcResponse)
    (marshalReq : RpcRequest → Option (List Nat))
    (c : Client) (_ctx : Ctx) (method : String) (params : Json)
    (incoming : List Nat) : CallOut :=
  let alloc := allocId c.nextID
  let req : RpcRequest := ⟨alloc.1, method, params⟩
  let c' : Client := ⟨alloc.2⟩
  match writeFrame marshalReq req with
  | none =>
    ⟨Except.error CallError.writeFailed, c', req, [], none, incoming⟩
  | some frame =>
    match readFrame parse incoming with
    | (Except.error e, rest) =>
      ⟨Except.error (CallError.readFailed e), c', req, [frame], none, rest⟩
    | (Except.ok resp, rest) =>
      ⟨handleResponse resp, c', req, [frame], some resp, rest⟩

/-- Value of one hex digit, as accepted by `encoding/hex`: `0`-`9`,
`a`-`f`, `A`-`F`; anything else is an `InvalidByteError`. -/
def hexDigitVal (ch : Char) : Option Nat :=
  if '0' ≤ ch ∧ ch ≤ '9' then some (ch.toNat - '0'.toNat)
  else if 'a' ≤ ch ∧ ch ≤ 'f' then some (ch.toNat - 'a'.toNat + 10)
  else if 'A' ≤ ch ∧ ch ≤ 'F' then some (ch.toNat - 'A'.toNat + 10)
  else none

/-- Pairwise hex decoding of a character list: an odd-length input is an
`ErrLength` failure, an invalid digit an `InvalidByteError`; both make
`hex.DecodeString` return a non-nil error. -/
def hexDecodeList : List Char → Option (List Nat)
  | [] => some []
  | [_] => none
  | a :: b :: rest =>
    match hexDigitVal a, hexDigitVal b, hexDecodeList rest with
    | some hi, some lo, some tail => some ((hi * 16 + lo) :: tail)
    | _, _, _ => none

/-- Model of `hex.DecodeString` from `encoding/hex`. -/
def hexDecode (s : String) : Option (List Nat) :=
  hexDecodeList s.data

/-- Lower-case hex digit, as in `encoding/hex`'s `hextable`. -/
def hexDigitChar (n : Nat) : Char :=
  if n < 10 then Char.ofNat (Char.toNat '0' + n)
  else Char.ofNat (Char.toNat 'a' + n - 10)

/-- Model of `hex.EncodeToString` from `encoding/hex`: two lower-case digits per
byte, high nibble first. -/
def hexEncode (bs : List Nat) : String :=
  String.mk (bs.flatMap fun b => [hexDigitChar (b / 16 % 16), hexDigitChar (b % 16)])

/-- Model of `json.Unmarshal(result, &challenge)` for the `authChallenge` struct
(`{challenge string}`): a nil result raw message is an unmarshal error;
an object decodes its `challenge` string field; `null` leaves the zero
value; any other JSON type is an error. -/
def unmarshalAuthChallenge : Option Json → Option String
  | none => none
  | some (Json.obj fields) => getStrField fields "challenge"
  | some Json.null => some ""
  | some _ => none

/-- Model of `json.Unmarshal(verifyResult, &auth)` for the `authResult` struct
(`{authenticated bool, session_id string}`). Returns the
`(Authenticated, SessionID)` pair. -/
def unmarshalAuthResult : Option Json → Option (Bool × String)
  | none => none
  | some (Json.obj fields) =>
    match getBoolField fields "authenticated",
        getStrField fields "session_id" with
    | some b, some sid => some (b, sid)
    | _, _ => none
  | some Json.null => some (false, "")
  | some _ => none

/-- The failure cases of `Client.Authenticate`, one per `return` path in
the source: a failed `auth.challenge` call, a challenge parse error, a
challenge hex decode error, a failed `auth.verify` call, an auth-result
parse error, and rejection by the server. -/
inductive AuthError where
  | challengeCall (e : CallError) : AuthError
  | parseChallenge : AuthError
  | decodeChallengeHex : AuthError
  | verifyCall (e : CallError) : AuthError
  | parseAuthResult : AuthError
  | rejected : AuthError

/-- The final step of `Client.Authenticate` (source lines after the
`auth.verify` call): parse the `authResult` and require the
`authenticated` flag. Only the flag is consulted; the parsed
`session_id` is discarded. -/
def authFinish (verifyResult : Option Json) : Except AuthError Unit :=
  match unmarshalAuthResult verifyResult with
  | none => Except.error AuthError.parseAuthResult
  | some auth =>
    if auth.1 then Except.ok () else Except.error AuthError.rejected

/-- The observable outcome of `Client.Authenticate`: the Go return
value (`nil` error is `Except.ok ()`), the updated client, a transcript
of the requests dispatched through `call`, the frames written, and the
unread remainder of the incoming stream. -/
structure AuthOut where
  res : Except AuthError Unit
  client : Client
  calls : List RpcRequest
  wire : List (List Nat)
  remaining : List Nat

/-- Function `Client.Authenticate` from the source: call `auth.challenge` with
the agent name, parse the hex challenge, sign its raw bytes with the
Ed25519 private key (`sign` stands for `ed25519.Sign`), then call
`auth.verify` with the hex-encoded signature and require the
`authenticated` flag. The parsed `session_id` is never used, and the
client retains no state from the handshake beyond the advanced id
counter. -/
def Client.Authenticate (parse : List Nat → Option RpcResponse)
    (marshalReq : RpcRequest → Option (List Nat))
    (sign : List Nat → List Nat → List Nat)
    (c : Client) (ctx : Ctx) (agentName : String)
    (privateKey : List Nat) (incoming : List Nat) : AuthOut :=
  let r1 := Client.call parse marshalReq c ctx "auth.challenge"
    (Json.obj [("agent", Json.str agentName)]) incoming
  match r1.res with
  | Except.error e =>
    ⟨Except.error (AuthError.challengeCall e), r1.client, [r1.req],
      r1.wire, r1.remaining⟩
  | Except.ok result =>
    match unmarshalAuthChallenge result with
    | none =>
      ⟨Except.error AuthError.parseChallenge, r1.client, [r1.req],
        r1.wire, r1.remaining⟩
    | some chal =>
      match hexDecode chal with
      | none =>
        ⟨Except.error AuthError.decodeChallengeHex, r1.client, [r1.req],
          r1.wire, r1.remaining⟩
      | some challengeBytes =>
        let signature := sign privateKey challengeBytes
        let r2 := Client.call parse marshalReq r1.client ctx "auth.verify"
          (Json.obj [("agent", Json.str agentName),
            ("signature", Json.str (hexEncode signature))]) r1.remaining
        match r2.res with
        | Except.error e =>
          ⟨Except.error (AuthError.verifyCall e), r2.client,
            [r1.req, r2.req], r1.wire ++ r2.wire, r2.remaining⟩
        | Except.ok verifyResult =>
          ⟨authFinish verifyResult, r2.client, [r1.req, r2.req],
            r1.wire ++ r2.wire, r2.remaining⟩

/-- Structure `Credential` from the source: `{path string, value RawMessage,
lease_id string, ttl uint64}`. -/
structure Credential where
  Path : String
  Value : Option Json
  LeaseID : String
  TTL : Nat

/-- Model of `json.Unmarshal(result, &cred)` for the `Credential` struct: a nil
result raw message is an unmarshal error; an object decodes `path` and
`lease_id` as strings, `value` as a raw message taking any JSON value,
and `ttl` as a `uint64`; `null` leaves all zero values. -/
def unmarshalCredential : Option Json → Option Credential
  | none => none
  | some (Json.obj fields) =>
    match getStrField fields "path", getStrField fields "lease_id",
        getUIntField fields "ttl" with
    | some path, some lease, some ttl =>
      some ⟨path, jLookup fields "value", lease, ttl⟩
    | _, _, _ => none
  | some Json.null => some ⟨"", none, "", 0⟩
  | some _ => none

/-- The failure cases of `Client.Retrieve`: a failed `call`, or a
credential parse error. -/
inductive RetrieveError where
  | call (e : CallError) : RetrieveError
  | parseCredential : RetrieveError

/-- The observable outcome of `Client.Retrieve`. -/
structure RetrieveOut where
  res : Except RetrieveError Credential
  client : Client
  req : RpcRequest
  wire : List (List Nat)
  remaining : List Nat

/-- Function `Client.Retrieve` from the source: call `credential.retrieve` with
`{"path": path, "ttl": ttl}` and decode the result into a `Credential`.
The requested `ttl` is only placed into the request params; the
returned credential is decoded from the server response alone. -/
def Client.Retrieve (parse : List Nat → Option RpcResponse)
    (marshalReq : RpcRequest → Option (List Nat))
    (c : Client) (ctx : Ctx) (path : String) (ttl : Int)
    (incoming : List Nat) : RetrieveOut :=
  let r := Client.call parse marshalReq c ctx "credential.retrieve"
    (Json.obj [("path", Json.str path), ("ttl", Json.num ttl)]) incoming
  match r.res with
  | Except.error e =>
    ⟨Except.error (RetrieveError.call e), r.client, r.req, r.wire,
      r.remaining⟩
  | Except.ok result =>
    match unmarshalCredential result with
    | none =>
      ⟨Except.error RetrieveError.parseCredential, r.client, r.req,
        r.wire, r.remaining⟩
    | some cred =>
      ⟨Except.ok cred, r.client, r.req, r.wire, r.remaining⟩

theorem be32_length (n : Nat) : (be32 n).length = 4 := rfl

theorem beVal_be32 (n : Nat) (h : n < 2 ^ 32) : beVal (be32 n) = n := by
  simp only [be32, beVal, List.foldl]
  omega

theorem frameBytes_take (payload : List Nat) :
    (frameBytes payload).take 4 = be32 (payload.length % 2 ^ 32) := by
  unfold frameBytes
  rw [List.take_append_of_le_length (by simp [be32_length])]
  simp [be32]

theorem frameBytes_drop (payload : List Nat) :
    (frameBytes payload).drop 4 = payload := by
  unfold frameBytes
  rw [List.drop_append_of_le_length (by simp [be32_length])]
  simp [be32]

theorem maxFrameSize_lt : maxFrameSize < 2 ^ 32 := by decide

/-- Claim C2 — For every payload whose JSON encoding is a valid frame
(its length within `maxFrameSize`), encoding with `writeFrame` and then
decoding with `readFrame` yields the identical structured content, the
4-byte big-endian length prefix equals the exact byte length of the
payload that follows it, and the stream is consumed exactly. `marshal`
and `parse` stand for `json.Marshal` / `json.Unmarshal`, which are
mutually inverse on any valid structured payload. -/
theorem writeFrame_readFrame_roundtrip
    (marshal : RpcResponse → Option (List Nat))
    (parse : List Nat → Option RpcResponse)
    (resp : RpcResponse) (payload : List Nat)
    (hm : marshal resp = some payload)
    (hp : parse payload = some resp)
    (hsize : payload.length ≤ maxFrameSize) :
    writeFrame marshal resp = some (frameBytes payload)
    ∧ readFrame parse (frameBytes payload) = (Except.ok resp, [])
    ∧ (frameBytes payload).take 4 = be32 payload.length
    ∧ beVal ((frameBytes payload).take 4) = payload.length
    ∧ (frameBytes payload).drop 4 = payload := by
  have hlt : payload.length < 2 ^ 32 :=
    lt_of_le_of_lt hsize maxFrameSize_lt
  have hmod : payload.length % 2 ^ 32 = payload.length :=
    Nat.mod_eq_of_lt hlt
  have htake : (frameBytes payload).take 4 = be32 payload.length := by
    rw [frameBytes_take, hmod]
  have hdrop : (frameBytes payload).drop 4 = payload :=
    frameBytes_drop payload
  have hbeval : beVal ((frameBytes payload).take 4) = payload.length := by
    rw [htake, beVal_be32 _ hlt]
  have hlen4 : 4 ≤ (frameBytes payload).length := by
    simp [frameBytes, be32]
  refine ⟨by simp [writeFrame, hm], ?_, htake, hbeval, hdrop⟩
  unfold readFrame
  rw [if_pos hlen4, hbeval, hdrop]
  rw [if_neg (by omega), if_pos le_rfl]
  simp [hp]

/-- Witness for C2 at a concrete two-byte payload. -/
theorem writeFrame_readFrame_roundtrip_witness :
    writeFrame (fun _ : RpcResponse => some [123, 125])
        (⟨1, none, none⟩ : RpcResponse)
      = some (frameBytes [123, 125])
    ∧ readFrame (fun _ => some (⟨1, none, none⟩ : RpcResponse))
        (frameBytes [123, 125])
      = (Except.ok (⟨1, none, none⟩ : RpcResponse), [])
    ∧ (frameBytes [123, 125]).take 4 = be32 ([123, 125] : List Nat).length
    ∧ beVal ((frameBytes [123, 125]).take 4) = ([123, 125] : List Nat).length
    ∧ (frameBytes [123, 125]).drop 4 = [123, 125] :=
  writeFrame_readFrame_roundtrip _ _ _ _ rfl rfl (by decide)

/-- Claim C3 — A declared frame length strictly above `maxFrameSize`
makes `readFrame` fail with the "frame too large" protocol error,
consuming exactly the 4-byte header and attempting no JSON parse (the
outcome is the same for any two parse functions); a declared length
within `maxFrameSize` never trips the size check. -/
theorem readFrame_size_limit
    (p₁ p₂ : List Nat → Option RpcResponse) (s : List Nat)
    (h4 : 4 ≤ s.length) :
    (maxFrameSize < beVal (s.take 4) →
      readFrame p₁ s
        = (Except.error (ReadFrameError.frameTooLarge (beVal (s.take 4))),
            s.drop 4)
      ∧ readFrame p₁ s = readFrame p₂ s)
    ∧ (beVal (s.take 4) ≤ maxFrameSize →
      ∀ L, (readFrame p₁ s).1
        ≠ Except.error (ReadFrameError.frameTooLarge L)) := by
  have key : ∀ p : List Nat → Option RpcResponse,
      maxFrameSize < beVal (s.take 4) →
      readFrame p s
        = (Except.error (ReadFrameError.frameTooLarge (beVal (s.take 4))),
            s.drop 4) := by
    intro p hbig
    unfold readFrame
    rw [if_pos h4, if_pos hbig]
  constructor
  · intro hbig
    exact ⟨key p₁ hbig, (key p₁ hbig).trans (key p₂ hbig).symm⟩
  · intro hsmall L
    unfold readFrame
    rw [if_pos h4, if_neg (by omega)]
    split
    · split <;> simp
    · simp

/-- Witness for C3 at the spec's Scenario 4 header declaring
20,000,000 bytes. -/
theorem readFrame_size_limit_witness :
    4 ≤ ([1, 49, 45, 0] : List Nat).length
    ∧ maxFrameSize < beVal (([1, 49, 45, 0] : List Nat).take 4)
    ∧ readFrame (fun _ => none) [1, 49, 45, 0]
      = (Except.error
          (ReadFrameError.frameTooLarge
            (beVal (([1, 49, 45, 0] : List Nat).take 4))),
          ([1, 49, 45, 0] : List Nat).drop 4) :=
  ⟨by decide, by decide,
    ((readFrame_size_limit (fun _ => none) (fun _ => none) _
      (by decide)).1 (by decide)).1⟩

/-- Claim C9 — `writeFrame` performs no maximum-size check: whenever the
request marshals, encoding succeeds for a payload of any length, with
the length prefix computed as the payload length truncated to an
unsigned 32-bit integer; the `maxFrameSize` ceiling is enforced only in
`readFrame`. -/
theorem writeFrame_no_size_limit
    (marshal : RpcRequest → Option (List Nat)) (req : RpcRequest)
    (payload : List Nat) (h : marshal req = some payload) :
    writeFrame marshal req
      = some (be32 (payload.length % 2 ^ 32) ++ payload) := by
  simp [writeFrame, frameBytes, h]

/-- Witness for C9 at a payload one byte longer than `maxFrameSize`. -/
theorem writeFrame_no_size_limit_witness :
    writeFrame (fun _ : RpcRequest => some (List.replicate 16777217 0))
        (⟨1, "m", Json.null⟩ : RpcRequest)
      = some (be32 ((List.replicate 16777217 (0 : Nat)).length % 2 ^ 32)
          ++ List.replicate 16777217 0)
    ∧ maxFrameSize < (List.replicate 16777217 (0 : Nat)).length :=
  ⟨writeFrame_no_size_limit _ _ _ rfl,
    by rw [List.length_replicate]; decide⟩

/-- Erase the id of a response, keeping its result and error payloads.
Two parse functions that agree up to `stripId` deliver responses
differing at most in their id fields. -/
def stripId (r : RpcResponse) : RpcResponse :=
  ⟨0, r.Result, r.Error⟩

theorem stripId_Result (r : RpcResponse) : (stripId r).Result = r.Result := rfl

theorem stripId_Error (r : RpcResponse) : (stripId r).Error = r.Error := rfl

theorem readFrame_eq_noHeader (p : List Nat → Option RpcResponse)
    (s : List Nat) (h4 : ¬ 4 ≤ s.length) :
    readFrame p s = (Except.error ReadFrameError.lengthReadFailed, []) := by
  unfold readFrame; rw [if_neg h4]

theorem readFrame_eq_tooLarge (p : List Nat → Option RpcResponse)
    (s : List Nat) (h4 : 4 ≤ s.length)
    (hbig : maxFrameSize < beVal (s.take 4)) :
    readFrame p s
      = (Except.error (ReadFrameError.frameTooLarge (beVal (s.take 4))),
          s.drop 4) := by
  unfold readFrame; rw [if_pos h4, if_pos hbig]

theorem readFrame_eq_short (p : List Nat → Option RpcResponse)
    (s : List Nat) (h4 : 4 ≤ s.length)
    (hbig : ¬ maxFrameSize < beVal (s.take 4))
    (hlen : ¬ beVal (s.take 4) ≤ (s.drop 4).length) :
    readFrame p s = (Except.error ReadFrameError.payloadReadFailed, []) := by
  unfold readFrame; rw [if_pos h4, if_neg hbig, if_neg hlen]

theorem readFrame_eq_parse (p : List Nat → Option RpcResponse)
    (s : List Nat) (h4 : 4 ≤ s.length)
    (hbig : ¬ maxFrameSize < beVal (s.take 4))
    (hlen : beVal (s.take 4) ≤ (s.drop 4).length) :
    readFrame p s
      = (match p ((s.drop 4).take (beVal (s.take 4))) with
        | some resp => (Except.ok resp, (s.drop 4).drop (beVal (s.take 4)))
        | none =>
          (Except.error ReadFrameError.unmarshalFailed,
            (s.drop 4).drop (beVal (s.take 4)))) := by
  unfold readFrame; rw [if_pos h4, if_neg hbig, if_pos hlen]

theorem readFrame_stripId (p₁ p₂ : List Nat → Option RpcResponse)
    (h : ∀ b, (p₁ b).map stripId = (p₂ b).map stripId) (s : List Nat) :
    (readFrame p₁ s).1.map stripId = (readFrame p₂ s).1.map stripId
    ∧ (readFrame p₁ s).2 = (readFrame p₂ s).2 := by
  by_cases h4 : 4 ≤ s.length
  · by_cases hbig : maxFrameSize < beVal (s.take 4)
    · rw [readFrame_eq_tooLarge p₁ s h4 hbig,
        readFrame_eq_tooLarge p₂ s h4 hbig]
      exact ⟨rfl, rfl⟩
    · by_cases hlen : beVal (s.take 4) ≤ (s.drop 4).length
      · rw [readFrame_eq_parse p₁ s h4 hbig hlen,
          readFrame_eq_parse p₂ s h4 hbig hlen]
        have hb := h ((s.drop 4).take (beVal (s.take 4)))
        cases hp1 : p₁ ((s.drop 4).take (beVal (s.take 4))) with
        | none =>
          cases hp2 : p₂ ((s.drop 4).take (beVal (s.take 4))) with
          | none => exact ⟨rfl, rfl⟩
          | some r₂ => rw [hp1, hp2] at hb; simp at hb
        | some r₁ =>
          cases hp2 : p₂ ((s.drop 4).take (beVal (s.take 4))) with
          | none => rw [hp1, hp2] at hb; simp at hb
          | some r₂ =>
            rw [hp1, hp2] at hb
            have hb2 : stripId r₁ = stripId r₂ := by simpa using hb
            exact ⟨by simp only [Except.map]; rw [hb2], rfl⟩
      · rw [readFrame_eq_short p₁ s h4 hbig hlen,
          readFrame_eq_short p₂ s h4 hbig hlen]
        exact ⟨rfl, rfl⟩
  · rw [readFrame_eq_noHeader p₁ s h4, readFrame_eq_noHeader p₂ s h4]
    exact ⟨rfl, rfl⟩

/-- Claim C1, amended — `Client.call` never inspects the response id:
for any two parse functions delivering responses that agree up to their
id fields, the call's outcome and stream consumption are identical. The
response consumed is simply the next frame on the connection, whatever
its id; an id mismatch is not detected and never produces a protocol
error. -/
theorem call_ignores_response_id
    (p₁ p₂ : List Nat → Option RpcResponse)
    (marshalReq : RpcRequest → Option (List Nat))
    (c : Client) (ctx : Ctx) (method : String) (params : Json)
    (incoming : List Nat)
    (h : ∀ b, (p₁ b).map stripId = (p₂ b).map stripId) :
    (Client.call p₁ marshalReq c ctx method params incoming).res
      = (Client.call p₂ marshalReq c ctx method params incoming).res
    ∧ (Client.call p₁ marshalReq c ctx method params incoming).remaining
      = (Client.call p₂ marshalReq c ctx method params incoming).remaining := by
  have hresp : ∀ r : RpcResponse, handleResponse (stripId r) = handleResponse r :=
    fun _ => rfl
  obtain ⟨h1, h2⟩ := readFrame_stripId p₁ p₂ h incoming
  rcases hr1 : readFrame p₁ incoming with ⟨res1, rest1⟩
  rcases hr2 : readFrame p₂ incoming with ⟨res2, rest2⟩
  rw [hr1, hr2] at h1 h2
  dsimp only at h1 h2
  subst h2
  cases hw : writeFrame marshalReq ⟨(allocId c.nextID).1, method, params⟩ with
  | none => simp [Client.call, hw]
  | some frame =>
    cases res1 with
    | error e₁ =>
      cases res2 with
      | error e₂ =>
        have he : e₁ = e₂ := by
          simpa [Except.map] using h1
        subst he
        simp [Client.call, hw, hr1, hr2]
      | ok r₂ => simp [Except.map] at h1
    | ok r₁ =>
      cases res2 with
      | error e₂ => simp [Except.map] at h1
      | ok r₂ =>
        have hb : stripId r₁ = stripId r₂ := by
          simpa [Except.map] using h1
        have hh : handleResponse r₁ = handleResponse r₂ := by
          rw [← hresp r₁, hb, hresp r₂]
        simp [Client.call, hw, hr1, hr2, hh]

/-- Witness for the amended C1, instantiated with a parse function
compared against itself. -/
theorem call_ignores_response_id_witness :
    (Client.call (fun _ => some ⟨5, some Json.null, none⟩)
        (fun _ => some [0]) NewClient ⟨false, none⟩ "m" Json.null
        (frameBytes [7])).res
      = (Client.call (fun _ => some ⟨5, some Json.null, none⟩)
        (fun _ => some [0]) NewClient ⟨false, none⟩ "m" Json.null
        (frameBytes [7])).res :=
  (call_ignores_response_id _ _ _ _ _ _ _ _ (fun _ => rfl)).1

/-- Claim C1, counterexample — a concrete exchange in which the client
sends request id 1, the server answers with id 99, and `Client.call`
returns the response's result as a plain success: the id mismatch is
not treated as a protocol error (and not as any error at all),
refuting the claim that a mismatched response id is a protocol-class
failure. -/
theorem call_id_mismatch_not_protocol_error :
    (Client.call (fun _ => some ⟨99, some (Json.str "ok"), none⟩)
        (fun _ => some [0]) NewClient ⟨false, none⟩ "credential.list"
        (Json.obj []) (frameBytes [7])).req.ID = 1
    ∧ (Client.call (fun _ => some ⟨99, some (Json.str "ok"), none⟩)
        (fun _ => some [0]) NewClient ⟨false, none⟩ "credential.list"
        (Json.obj []) (frameBytes [7])).received
      = some ⟨99, some (Json.str "ok"), none⟩
    ∧ (Client.call (fun _ => some ⟨99, some (Json.str "ok"), none⟩)
        (fun _ => some [0]) NewClient ⟨false, none⟩ "credential.list"
        (Json.obj []) (frameBytes [7])).res
      = Except.ok (some (Json.str "ok")) :=
  ⟨rfl, rfl, rfl⟩

/-- Claim C4 — whenever the response frame carries an error payload that
decodes to a `VaultError`, `Client.call` returns that `VaultError` as
the call's failure (never a success result); and the decoded error's
`Code`, `Message` and diagnostic fields (`Detail`, `Suggestion`,
`DocsURL`, `Context`) are exactly the server-sent fields of the
payload, preserved unmodified. -/
theorem call_error_payload_returns_vault_error
    (parse : List Nat → Option RpcResponse)
    (marshalReq : RpcRequest → Option (List Nat))
    (c : Client) (ctx : Ctx) (method : String) (params : Json)
    (incoming pbytes rest : List Nat)
    (resp : RpcResponse) (errPayload : Json) (ve : VaultError)
    (hw : marshalReq ⟨(allocId c.nextID).1, method, params⟩ = some pbytes)
    (hr : readFrame parse incoming = (Except.ok resp, rest))
    (he : resp.Error = some errPayload)
    (hv : unmarshalVaultError errPayload = some ve) :
    (Client.call parse marshalReq c ctx method params incoming).res
      = Except.error (CallError.vault ve)
    ∧ ∀ fields, errPayload = Json.obj fields →
        getStrField fields "code" = some ve.Code
        ∧ getStrField fields "message" = some ve.Message
        ∧ getStrField fields "detail" = some ve.Detail
        ∧ getStrField fields "suggestion" = some ve.Suggestion
        ∧ getStrField fields "docs_url" = some ve.DocsURL
        ∧ jLookup fields "context" = ve.Context := by
  constructor
  · simp [Client.call, writeFrame, hw, hr, handleResponse, he, hv]
  · rintro fields rfl
    simp only [unmarshalVaultError] at hv
    split at hv
    · rename_i code msg detail sugg docs hcode hmsg hdetail hsugg hdocs
      injection hv with hv
      subst hv
      exact ⟨hcode, hmsg, hdetail, hsugg, hdocs, rfl⟩
    · exact absurd hv (by simp)

/-- Witness for C4 at the spec's Scenario 3 error payload. -/
theorem call_error_payload_returns_vault_error_witness :
    (Client.call
        (fun _ => some ⟨1, none,
          some (Json.obj [("code", Json.str "CREDENTIAL_NOT_FOUND"),
            ("message", Json.str "no such path")])⟩)
        (fun _ => some [0]) NewClient ⟨false, none⟩ "credential.retrieve"
        Json.null (frameBytes [7])).res
      = Except.error (CallError.vault
          ⟨"CREDENTIAL_NOT_FOUND", "no such path", "", "", "", none⟩) :=
  (call_error_payload_returns_vault_error
    (fun _ => some ⟨1, none,
      some (Json.obj [("code", Json.str "CREDENTIAL_NOT_FOUND"),
        ("message", Json.str "no such path")])⟩)
    (fun _ => some [0]) NewClient ⟨false, none⟩ "credential.retrieve"
    Json.null (frameBytes [7]) [0] []
    ⟨1, none,
      some (Json.obj [("code", Json.str "CREDENTIAL_NOT_FOUND"),
        ("message", Json.str "no such path")])⟩
    (Json.obj [("code", Json.str "CREDENTIAL_NOT_FOUND"),
      ("message", Json.str "no such path")])
    ⟨"CREDENTIAL_NOT_FOUND", "no such path", "", "", "", none⟩
    rfl rfl rfl rfl).1

/-- The request constructed by `Client.call` and the updated client
state, in every branch: the id is `nextID.Add(1) - 1` and the stored
counter is the incremented value. -/
theorem call_client_req
    (parse : List Nat → Option RpcResponse)
    (marshalReq : RpcRequest → Option (List Nat))
    (c : Client) (ctx : Ctx) (method : String) (params : Json)
    (incoming : List Nat) :
    (Client.call parse marshalReq c ctx method params incoming).client
      = ⟨(allocId c.nextID).2⟩
    ∧ (Client.call parse marshalReq c ctx method params incoming).req
      = ⟨(allocId c.nextID).1, method, params⟩ := by
  cases hw : writeFrame marshalReq ⟨(allocId c.nextID).1, method, params⟩ with
  | none =>
    exact ⟨by simp [Client.call, hw], by simp [Client.call, hw]⟩
  | some frame =>
    rcases hr : readFrame parse incoming with ⟨res, rest⟩
    cases res with
    | error e =>
      exact ⟨by simp [Client.call, hw, hr], by simp [Client.call, hw, hr]⟩
    | ok r =>
      exact ⟨by simp [Client.call, hw, hr], by simp [Client.call, hw, hr]⟩

theorem allocId_fst (s : Nat) (h : s < 2 ^ 64) : (allocId s).1 = s := by
  simp only [allocId]
  omega

theorem allocId_snd (s : Nat) : (allocId s).2 = (s + 1) % 2 ^ 64 := rfl

/-- The ids assigned to a sequence of calls on one client: each entry
is the id field of the request constructed by the corresponding
`Client.call`, starting from the given client state and threading the
updated state into the next call. -/
def callIds (parse : List Nat → Option RpcResponse)
    (marshalReq : RpcRequest → Option (List Nat)) (ctx : Ctx) :
    List (String × Json × List Nat) → Client → List Nat
  | [], _ => []
  | (meth, params, inc) :: rest, c =>
    let out := Client.call parse marshalReq c ctx meth params inc
    out.req.ID :: callIds parse marshalReq ctx rest out.client

theorem callIds_get (parse : List Nat → Option RpcResponse)
    (marshalReq : RpcRequest → Option (List Nat)) (ctx : Ctx) :
    ∀ (inputs : List (String × Json × List Nat)) (s k : Nat),
      k < inputs.length → s + k < 2 ^ 64 →
      (callIds parse marshalReq ctx inputs ⟨s⟩).get? k = some (s + k)
  | [], s, k, hk, _ => absurd hk (by simp)
  | (meth, params, inc) :: rest, s, 0, _, h => by
    simp only [callIds, List.get?]
    rw [(call_client_req parse marshalReq ⟨s⟩ ctx meth params inc).2]
    simp only [Nat.add_zero]
    rw [allocId_fst s (by omega)]
  | (meth, params, inc) :: rest, s, k + 1, hk, h => by
    simp only [callIds, List.get?]
    rw [(call_client_req parse marshalReq ⟨s⟩ ctx meth params inc).1]
    have hs : (allocId s).2 = s + 1 := by
      rw [allocId_snd]
      omega
    rw [hs, callIds_get parse marshalReq ctx rest (s + 1) k
      (by simpa using Nat.lt_of_succ_lt_succ (by simpa using hk)) (by omega)]
    congr 1
    omega

/-- Claim C5 — on a fresh client the request-id counter starts at 1 and
each successive call through the dispatcher is assigned an id exactly 1
greater than the previous call's id: for every sequence of calls, the
n-th call carries id n (for n below the `uint64` wrap-around), so no id
is reused or reset for the lifetime of the connection. -/
theorem nth_call_id (parse : List Nat → Option RpcResponse)
    (marshalReq : RpcRequest → Option (List Nat)) (ctx : Ctx)
    (inputs : List (String × Json × List Nat)) (n : Nat)
    (h1 : 1 ≤ n) (h2 : n ≤ inputs.length) (h64 : n < 2 ^ 64) :
    (callIds parse marshalReq ctx inputs NewClient).get? (n - 1)
      = some n := by
  have := callIds_get parse marshalReq ctx inputs 1 (n - 1)
    (by omega) (by omega)
  rw [show (1 + (n - 1)) = n by omega] at this
  exact this

/-- Witness for C5: the third of three calls on a fresh client carries
id 3. -/
theorem nth_call_id_witness :
    (callIds (fun _ => none) (fun _ => none) ⟨false, none⟩
      [("a", Json.null, []), ("b", Json.null, []), ("c", Json.null, [])]
      NewClient).get? 2 = some 3 :=
  nth_call_id _ _ _ _ 3 (by decide) (by decide) (by decide)

/-- Claim C6, amended — `Client.call` never observes the cancellation
signal: a context cancelled while the call waits for the exchange
section changes nothing; the call still acquires the lock, writes the
request frame to the transport (whenever the request marshals), and
consumes the response. Only the context deadline is consulted, and only
to set a transport deadline after the lock is acquired. -/
theorem call_ignores_cancellation
    (parse : List Nat → Option RpcResponse)
    (marshalReq : RpcRequest → Option (List Nat))
    (c : Client) (d : Option Nat) (method : String) (params : Json)
    (incoming pbytes : List Nat)
    (hm : marshalReq ⟨(allocId c.nextID).1, method, params⟩
      = some pbytes) :
    Client.call parse marshalReq c ⟨true, d⟩ method params incoming
      = Client.call parse marshalReq c ⟨false, d⟩ method params incoming
    ∧ (Client.call parse marshalReq c ⟨true, d⟩ method params
        incoming).wire = [frameBytes pbytes] := by
  refine ⟨rfl, ?_⟩
  rcases hr : readFrame parse incoming with ⟨res, rest⟩
  cases res <;> simp [Client.call, writeFrame, hm, hr]

/-- Witness for the amended C6. -/
theorem call_ignores_cancellation_witness :
    Client.call (fun _ => none) (fun _ => some [0]) NewClient
        ⟨true, some 5⟩ "m" Json.null []
      = Client.call (fun _ => none) (fun _ => some [0]) NewClient
        ⟨false, some 5⟩ "m" Json.null []
    ∧ (Client.call (fun _ => none) (fun _ => some [0]) NewClient
        ⟨true, some 5⟩ "m" Json.null []).wire = [frameBytes [0]] :=
  call_ignores_cancellation _ _ _ _ _ _ _ _ rfl

/-- Claim C6, counterexample — a concrete call whose context is already
cancelled while the caller waits for the exchange section: the call
does not return immediately and does not refrain from sending; it
writes its request frame to the transport and completes normally with
the server's response, refuting the claim that a cancellation triggered
while waiting to acquire the critical section makes the call return
without having sent anything. -/
theorem call_cancelled_still_sends :
    (Client.call (fun _ => some ⟨1, some Json.null, none⟩)
        (fun _ => some [0]) NewClient ⟨true, none⟩ "credential.list"
        (Json.obj []) (frameBytes [7])).wire = [frameBytes [0]]
    ∧ (Client.call (fun _ => some ⟨1, some Json.null, none⟩)
        (fun _ => some [0]) NewClient ⟨true, none⟩ "credential.list"
        (Json.obj []) (frameBytes [7])).res
      = Except.ok (some Json.null) :=
  ⟨rfl, rfl⟩

/-- Claim C7 — during `Authenticate`, a challenge string that is not
valid hex fails the handshake with the client-side hex decode error
before any further network call: the only request dispatched is the
single `auth.challenge` call (so `auth.verify` is never sent), and the
error is returned to the caller rather than retried. -/
theorem authenticate_bad_hex_stops_before_verify
    (parse : List Nat → Option RpcResponse)
    (marshalReq : RpcRequest → Option (List Nat))
    (sign : List Nat → List Nat → List Nat)
    (c : Client) (ctx : Ctx) (agentName : String)
    (privateKey incoming : List Nat)
    (result : Option Json) (chal : String)
    (h1 : (Client.call parse marshalReq c ctx "auth.challenge"
        (Json.obj [("agent", Json.str agentName)]) incoming).res
      = Except.ok result)
    (h2 : unmarshalAuthChallenge result = some chal)
    (h3 : hexDecode chal = none) :
    (Client.Authenticate parse marshalReq sign c ctx agentName
        privateKey incoming).res = Except.error AuthError.decodeChallengeHex
    ∧ (Client.Authenticate parse marshalReq sign c ctx agentName
        privateKey incoming).calls.map RpcRequest.Method
      = ["auth.challenge"] := by
  have hreq := (call_client_req parse marshalReq c ctx "auth.challenge"
    (Json.obj [("agent", Json.str agentName)]) incoming).2
  constructor
  · simp [Client.Authenticate, h1, h2, h3]
  · simp [Client.Authenticate, h1, h2, h3, hreq]

/-- Witness for C7: the server returns challenge string "zz", which is
not valid hex; the handshake stops after the single challenge call. -/
theorem authenticate_bad_hex_stops_before_verify_witness :
    (Client.Authenticate
        (fun _ => some ⟨1,
          some (Json.obj [("challenge", Json.str "zz")]), none⟩)
        (fun _ => some [0]) (fun _ _ => []) NewClient ⟨false, none⟩
        "agent-1" [] (frameBytes [7])).res
      = Except.error AuthError.decodeChallengeHex
    ∧ (Client.Authenticate
        (fun _ => some ⟨1,
          some (Json.obj [("challenge", Json.str "zz")]), none⟩)
        (fun _ => some [0]) (fun _ _ => []) NewClient ⟨false, none⟩
        "agent-1" [] (frameBytes [7])).calls.map RpcRequest.Method
      = ["auth.challenge"] :=
  authenticate_bad_hex_stops_before_verify
    (fun _ => some ⟨1, some (Json.obj [("challenge", Json.str "zz")]), none⟩)
    (fun _ => some [0]) (fun _ _ => []) NewClient ⟨false, none⟩
    "agent-1" [] (frameBytes [7])
    (some (Json.obj [("challenge", Json.str "zz")])) "zz" rfl rfl rfl

/-- Claim C8 — a successful `Retrieve` surfaces exactly the ttl the
server sent: the returned credential is decoded from the server
response alone, its `TTL` field is the response's `ttl` field, and the
call's outcome is entirely independent of the requested ttl, which the
client neither substitutes nor checks. -/
theorem retrieve_surfaces_server_ttl
    (parse : List Nat → Option RpcResponse)
    (marshalReq : RpcRequest → Option (List Nat))
    (c : Client) (ctx : Ctx) (path : String) (ttl₁ ttl₂ : Int)
    (incoming p₁ p₂ rest : List Nat) (resp : RpcResponse)
    (cred : Credential)
    (hm₁ : marshalReq ⟨(allocId c.nextID).1, "credential.retrieve",
        Json.obj [("path", Json.str path), ("ttl", Json.num ttl₁)]⟩
      = some p₁)
    (hm₂ : marshalReq ⟨(allocId c.nextID).1, "credential.retrieve",
        Json.obj [("path", Json.str path), ("ttl", Json.num ttl₂)]⟩
      = some p₂)
    (hr : readFrame parse incoming = (Except.ok resp, rest))
    (he : resp.Error = none)
    (hc : unmarshalCredential resp.Result = some cred) :
    (Client.Retrieve parse marshalReq c ctx path ttl₁ incoming).res
      = Except.ok cred
    ∧ (Client.Retrieve parse marshalReq c ctx path ttl₁ incoming).res
      = (Client.Retrieve parse marshalReq c ctx path ttl₂ incoming).res
    ∧ ∀ fields, resp.Result = some (Json.obj fields) →
        getUIntField fields "ttl" = some cred.TTL := by
  have key₁ : (Client.Retrieve parse marshalReq c ctx path ttl₁
      incoming).res = Except.ok cred := by
    simp [Client.Retrieve, Client.call, writeFrame, hm₁, hr,
      handleResponse, he, hc]
  have key₂ : (Client.Retrieve parse marshalReq c ctx path ttl₂
      incoming).res = Except.ok cred := by
    simp [Client.Retrieve, Client.call, writeFrame, hm₂, hr,
      handleResponse, he, hc]
  refine ⟨key₁, key₁.trans key₂.symm, ?_⟩
  intro fields hf
  rw [hf] at hc
  simp only [unmarshalCredential] at hc
  split at hc
  · rename_i pathv leasev ttlv hpath hlease httl
    injection hc with hc
    subst hc
    exact httl
  · exact absurd hc (by simp)

/-- Witness for C8 at the spec's Scenario 2: the caller requests ttl
300, the server returns ttl 60, and the credential surfaces 60. -/
theorem retrieve_surfaces_server_ttl_witness :
    (Client.Retrieve
        (fun _ => some ⟨1, some (Json.obj [("path", Json.str "db/primary"),
          ("lease_id", Json.str "L1"), ("ttl", Json.num 60)]), none⟩)
        (fun _ => some [0]) NewClient ⟨false, none⟩ "db/primary" 300
        (frameBytes [7])).res
      = Except.ok ⟨"db/primary", none, "L1", 60⟩
    ∧ (Client.Retrieve
        (fun _ => some ⟨1, some (Json.obj [("path", Json.str "db/primary"),
          ("lease_id", Json.str "L1"), ("ttl", Json.num 60)]), none⟩)
        (fun _ => some [0]) NewClient ⟨false, none⟩ "db/primary" 300
        (frameBytes [7])).res
      = (Client.Retrieve
        (fun _ => some ⟨1, some (Json.obj [("path", Json.str "db/primary"),
          ("lease_id", Json.str "L1"), ("ttl", Json.num 60)]), none⟩)
        (fun _ => some [0]) NewClient ⟨false, none⟩ "db/primary" 60
        (frameBytes [7])).res :=
  ⟨(retrieve_surfaces_server_ttl
      (fun _ => some ⟨1, some (Json.obj [("path", Json.str "db/primary"),
        ("lease_id", Json.str "L1"), ("ttl", Json.num 60)]), none⟩)
      (fun _ => some [0]) NewClient ⟨false, none⟩ "db/primary" 300 60
      (frameBytes [7]) [0] [0] []
      ⟨1, some (Json.obj [("path", Json.str "db/primary"),
        ("lease_id", Json.str "L1"), ("ttl", Json.num 60)]), none⟩
      ⟨"db/primary", none, "L1", 60⟩
      rfl rfl rfl rfl rfl).1,
    (retrieve_surfaces_server_ttl
      (fun _ => some ⟨1, some (Json.obj [("path", Json.str "db/primary"),
        ("lease_id", Json.str "L1"), ("ttl", Json.num 60)]), none⟩)
      (fun _ => some [0]) NewClient ⟨false, none⟩ "db/primary" 300 60
      (frameBytes [7]) [0] [0] []
      ⟨1, some (Json.obj [("path", Json.str "db/primary"),
        ("lease_id", Json.str "L1"), ("ttl", Json.num 60)]), none⟩
      ⟨"db/primary", none, "L1", 60⟩
      rfl rfl rfl rfl rfl).2.1⟩

/-- Claim C10 — `Authenticate` never exposes the session identifier: a
successful handshake returns only the unit success value (a nil error),
the client retains no state beyond the advanced id counter (its state
after the handshake is one of the two counter advances, with no session
field), and the outcome of the verify step depends only on the
`authenticated` flag — two verify results with the same flag but
different `session_id` values produce the same outcome. -/
theorem authenticate_discards_session
    (parse : List Nat → Option RpcResponse)
    (marshalReq : RpcRequest → Option (List Nat))
    (sign : List Nat → List Nat → List Nat)
    (c : Client) (ctx : Ctx) (agentName : String)
    (privateKey incoming : List Nat) :
    (∀ u, (Client.Authenticate parse marshalReq sign c ctx agentName
        privateKey incoming).res = Except.ok u → u = ())
    ∧ ((Client.Authenticate parse marshalReq sign c ctx agentName
        privateKey incoming).client = ⟨(allocId c.nextID).2⟩
      ∨ (Client.Authenticate parse marshalReq sign c ctx agentName
        privateKey incoming).client
          = ⟨(allocId (allocId c.nextID).2).2⟩)
    ∧ (∀ (v₁ v₂ : Option Json) (b : Bool) (sid₁ sid₂ : String),
        unmarshalAuthResult v₁ = some (b, sid₁) →
        unmarshalAuthResult v₂ = some (b, sid₂) →
        authFinish v₁ = authFinish v₂) := by
  refine ⟨fun u _ => rfl, ?_, ?_⟩
  · have hc1 := (call_client_req parse marshalReq c ctx "auth.challenge"
      (Json.obj [("agent", Json.str agentName)]) incoming).1
    rcases h1 : (Client.call parse marshalReq c ctx "auth.challenge"
        (Json.obj [("agent", Json.str agentName)]) incoming).res with e | result
    · left
      simp [Client.Authenticate, h1, hc1]
    · rcases h2 : unmarshalAuthChallenge result with _ | chal
      · left
        simp [Client.Authenticate, h1, h2, hc1]
      · rcases h3 : hexDecode chal with _ | challengeBytes
        · left
          simp [Client.Authenticate, h1, h2, h3, hc1]
        · right
          have hc2 := (call_client_req parse marshalReq
            ⟨(allocId c.nextID).2⟩ ctx "auth.verify"
            (Json.obj [("agent", Json.str agentName),
              ("signature",
                Json.str (hexEncode (sign privateKey challengeBytes)))])
            (Client.call parse marshalReq c ctx "auth.challenge"
              (Json.obj [("agent", Json.str agentName)])
              incoming).remaining).1
          rcases h4 : (Client.call parse marshalReq ⟨(allocId c.nextID).2⟩
              ctx "auth.verify"
              (Json.obj [("agent", Json.str agentName),
                ("signature",
                  Json.str (hexEncode (sign privateKey challengeBytes)))])
              (Client.call parse marshalReq c ctx "auth.challenge"
                (Json.obj [("agent", Json.str agentName)])
                incoming).remaining).res with e | vres
          · simp [Client.Authenticate, h1, h2, h3, hc1, h4, hc2]
          · simp [Client.Authenticate, h1, h2, h3, hc1, h4, hc2]
  · intro v₁ v₂ b sid₁ sid₂ hv₁ hv₂
    unfold authFinish
    rw [hv₁, hv₂]

/-- Witness for C10: a concrete successful handshake (server returns
challenge "0a", then an authenticated result carrying session id "S")
returns only the unit success value; and two concrete verify payloads
differing only in `session_id` produce the same outcome. -/
theorem authenticate_discards_session_witness :
    (Client.Authenticate
        (fun b => if b = [1] then
          some ⟨1, some (Json.obj [("challenge", Json.str "0a")]), none⟩
        else
          some ⟨2, some (Json.obj [("authenticated", Json.bool true),
            ("session_id", Json.str "S")]), none⟩)
        (fun _ => some [0]) (fun _ _ => [7]) NewClient ⟨false, none⟩
        "agent-1" [] (frameBytes [1] ++ frameBytes [2])).res
      = Except.ok ()
    ∧ authFinish (some (Json.obj [("authenticated", Json.bool true),
        ("session_id", Json.str "S")]))
      = authFinish (some (Json.obj [("authenticated", Json.bool true),
        ("session_id", Json.str "X")])) :=
  ⟨rfl,
    (authenticate_discards_session
      (fun b => if b = [1] then
        some ⟨1, some (Json.obj [("challenge", Json.str "0a")]), none⟩
      else
        some ⟨2, some (Json.obj [("authenticated", Json.bool true),
          ("session_id", Json.str "S")]), none⟩)
      (fun _ => some [0]) (fun _ _ => [7]) NewClient ⟨false, none⟩
      "agent-1" [] (frameBytes [1] ++ frameBytes [2])).2.2
      (some (Json.obj [("authenticated", Json.bool true),
        ("session_id", Json.str "S")]))
      (some (Json.obj [("authenticated", Json.bool true),
        ("session_id", Json.str "X")]))
      true "S" "X" rfl rfl⟩

end Sanctum
